import Mathlib

/-!
Shallow embedding of the royal-api service (src/api.py): a small CRUD
backend over a users table and a deposit_addresses table.  Database state
is modelled explicitly, numeric values exactly as rationals, and each
endpoint as a function from state and request to a response paired with
the successor state.  Read endpoints return the state unchanged, which
mirrors their single SELECT statement; write endpoints mirror their
single UPDATE statement row by row.
-/

deriving instance DecidableEq for Except

/-- Errors surfaced by the endpoints, mirroring the HTTPException status
codes raised in api.py: notFound for 404 and invalidFormat for 400. -/
inductive ApiError where
  | notFound (detail : String)
  | invalidFormat (detail : String)
deriving DecidableEq, Repr

/-- Calendar date as produced by datetime.strptime with format %Y-%m-%d
followed by .date(). -/
structure PyDate where
  year : Nat
  month : Nat
  day : Nat
deriving DecidableEq, Repr

/-- Gregorian leap-year rule used by datetime. -/
def leapYear (y : Nat) : Bool := (y % 4 == 0 && y % 100 != 0) || y % 400 == 0

/-- Number of days of month m in year y, as validated by the datetime
constructor. -/
def daysInMonth (y m : Nat) : Nat :=
  if m == 2 then (if leapYear y then 29 else 28)
  else if m == 4 || m == 6 || m == 9 || m == 11 then 30
  else 31

/-- Decimal digit test on a character. -/
def isDigitChar (c : Char) : Bool := 48 ≤ c.toNat && c.toNat ≤ 57

/-- All characters are decimal digits. -/
def allDigits (cs : List Char) : Bool := cs.all isDigitChar

/-- Numeric value of a digit string. -/
def digitsVal (cs : List Char) : Nat :=
  cs.foldl (fun n c => 10 * n + (c.toNat - 48)) 0

/-- Split a character list at every dash, keeping empty pieces, exactly
like String.splitOn with a one-character separator. -/
def splitDashes : List Char → List (List Char)
  | [] => [[]]
  | c :: cs =>
    if c == '-' then [] :: splitDashes cs
    else
      match splitDashes cs with
      | [] => [[c]]
      | p :: ps => (c :: p) :: ps

/-- Embedding of datetime.strptime(s, "%Y-%m-%d").date(): exactly four
digits for the year, one or two digits for month and day, and the
calendar bounds checked by the datetime constructor (month 1..12, day
1..daysInMonth, year at least 1).  Returns none exactly where Python
raises ValueError. -/
def parseDate (s : String) : Option PyDate :=
  match splitDashes s.data with
  | [ys, ms, ds] =>
    if allDigits ys && allDigits ms && allDigits ds
        && ys.length == 4
        && (ms.length == 1 || ms.length == 2)
        && (ds.length == 1 || ds.length == 2) then
      let y := digitsVal ys
      let m := digitsVal ms
      let d := digitsVal ds
      if 1 ≤ y ∧ 1 ≤ m ∧ m ≤ 12 ∧ 1 ≤ d ∧ d ≤ daysInMonth y m then
        some ⟨y, m, d⟩
      else none
    else none
  | _ => none

/-- Two-digit zero padding, as used by date.isoformat for month and day. -/
def pad2 (n : Nat) : String := if n < 10 then "0" ++ toString n else toString n

/-- Four-digit zero padding, as used by date.isoformat for the year. -/
def pad4 (n : Nat) : String :=
  if n < 10 then "000" ++ toString n
  else if n < 100 then "00" ++ toString n
  else if n < 1000 then "0" ++ toString n
  else toString n

/-- Embedding of date.isoformat(): zero-padded YYYY-MM-DD. -/
def dateToIso (d : PyDate) : String :=
  pad4 d.year ++ "-" ++ pad2 d.month ++ "-" ++ pad2 d.day

/-- A string is a canonical YYYY-MM-DD date when it parses and printing
the parsed date gives back the same string. -/
def isCanonicalDate (s : String) : Bool :=
  match parseDate s with
  | some d => dateToIso d == s
  | none => false

/-- Row of the users table: primary key id, unique tg_id, the numeric
balance column balance_usdt, and the four profile columns. -/
structure User where
  id : Nat
  tg_id : Int
  balance_usdt : ℚ
  first_name : Option String
  last_name : Option String
  birth_date : Option PyDate
  gender : Option String
deriving DecidableEq, Repr

/-- Row of the deposit_addresses table: foreign key to users.id, the
address string and the assignment timestamp. -/
structure DepositAddress where
  user_id : Nat
  address : String
  assigned_at : Nat
deriving DecidableEq, Repr

/-- The persisted state the service reads and writes. -/
structure DB where
  users : List User
  deposit_addresses : List DepositAddress
deriving DecidableEq, Repr

/-- Request body of /api/balance (BalanceRequest in api.py). -/
structure BalanceRequest where
  tg_id : Int

/-- Request body of /api/deposit-address (DepositAddressRequest). -/
structure DepositAddressRequest where
  tg_id : Int

/-- Request body of /api/change-balance (BalanceChangeRequest). -/
structure BalanceChangeRequest where
  tg_id : Int
  delta : ℚ

/-- Request body of /api/personal-data/save (PersonalDataRequest); the
four profile fields are optional and default to absent. -/
structure PersonalDataRequest where
  tg_id : Int
  first_name : Option String := none
  last_name : Option String := none
  birth_date : Option String := none
  gender : Option String := none

/-- Request body of /api/personal-data/get (PersonalDataGetRequest). -/
structure PersonalDataGetRequest where
  tg_id : Int

/-- Response shape shared by the save and get personal-data endpoints:
birth_date is rendered as its isoformat string or null. -/
structure PersonalData where
  first_name : Option String
  last_name : Option String
  birth_date : Option String
  gender : Option String
deriving DecidableEq, Repr

/-- Conversion float(row[...]) applied to the numeric column before it is
placed in the response; numbers are modelled exactly, so the conversion
is the identity. -/
def pyFloat (q : ℚ) : ℚ := q

/-- WHERE tg_id = $1 predicate on a users row. -/
def userMatch (tg : Int) (u : User) : Bool := u.tg_id == tg

/-- Endpoint /api/balance: SELECT balance_usdt FROM users WHERE tg_id = $1,
404 when no row is found. -/
def getBalance (db : DB) (req : BalanceRequest) : Except ApiError ℚ × DB :=
  match db.users.find? (userMatch req.tg_id) with
  | some u => (.ok (pyFloat u.balance_usdt), db)
  | none => (.error (.notFound "User not found"), db)

/-- Rows of the join in /api/deposit-address: deposit_addresses rows whose
user_id equals the id of a users row with the requested tg_id. -/
def depositCandidates (db : DB) (tg : Int) : List DepositAddress :=
  db.deposit_addresses.filter
    (fun da => db.users.any (fun u => u.id == da.user_id && u.tg_id == tg))

/-- ORDER BY assigned_at DESC LIMIT 1 over the join result: some row with
the maximal assigned_at, none when the list is empty. -/
def latestAssigned : List DepositAddress → Option DepositAddress
  | [] => none
  | d :: ds =>
    match latestAssigned ds with
    | none => some d
    | some m => if d.assigned_at < m.assigned_at then some m else some d

/-- Endpoint /api/deposit-address: join users to deposit_addresses on the
requested tg_id, order by assigned_at descending, take one row; 404 when
the join is empty. -/
def getDepositAddress (db : DB) (req : DepositAddressRequest) :
    Except ApiError String × DB :=
  match latestAssigned (depositCandidates db req.tg_id) with
  | some m => (.ok m.address, db)
  | none => (.error (.notFound "Deposit address not found"), db)

/-- The SQL GREATEST function on two numeric arguments. -/
def greatest (a b : ℚ) : ℚ := if a ≤ b then b else a

/-- Row update of the change-balance UPDATE statement:
SET balance_usdt = GREATEST(0, balance_usdt + $1). -/
def clampUpdate (delta : ℚ) (u : User) : User :=
  { u with balance_usdt := greatest 0 (u.balance_usdt + delta) }

/-- Effect of an UPDATE users ... WHERE tg_id = $n statement on the
table: apply the SET clause f to every matching row, keep the rest. -/
def updateWhere (tg : Int) (f : User → User) (l : List User) : List User :=
  l.map (fun u => if userMatch tg u then f u else u)

/-- Endpoint /api/change-balance: UPDATE users SET balance_usdt =
GREATEST(0, balance_usdt + $1) WHERE tg_id = $2 RETURNING balance_usdt;
fetchrow takes the first returned row, 404 when no row was updated. -/
def changeBalance (db : DB) (req : BalanceChangeRequest) :
    Except ApiError ℚ × DB :=
  match (updateWhere req.tg_id (clampUpdate req.delta) db.users).find?
      (userMatch req.tg_id) with
  | some u =>
    (.ok (pyFloat u.balance_usdt),
      { db with users := updateWhere req.tg_id (clampUpdate req.delta) db.users })
  | none =>
    (.error (.notFound "User not found"),
      { db with users := updateWhere req.tg_id (clampUpdate req.delta) db.users })

/-- Step 1 of save_personal_data: parse the date when it came.  The Python
guard is a truthiness test, so both an absent field and an empty string
skip the parse and store null; a non-empty unparseable string raises the
400 error. -/
def parseBirthField : Option String → Except ApiError (Option PyDate)
  | none => .ok none
  | some s =>
    if s == "" then .ok none
    else
      match parseDate s with
      | some d => .ok (some d)
      | none => .error (.invalidFormat "Invalid date format, expected YYYY-MM-DD")

/-- Row update of the save-personal-data UPDATE statement: every profile
column is set to the supplied value, absent fields included. -/
def setProfile (req : PersonalDataRequest) (bd : Option PyDate) (u : User) : User :=
  { u with first_name := req.first_name, last_name := req.last_name,
           birth_date := bd, gender := req.gender }

/-- Response row shaping shared by both personal-data endpoints:
birth_date is rendered through isoformat, null stays null. -/
def profileRow (u : User) : PersonalData :=
  { first_name := u.first_name, last_name := u.last_name,
    birth_date := u.birth_date.map dateToIso, gender := u.gender }

/-- UPDATE stage of /api/personal-data/save: UPDATE users SET first_name,
last_name, birth_date, gender WHERE tg_id = $5 RETURNING the four
columns; 404 when no row was updated. -/
def runSaveUpdate (db : DB) (req : PersonalDataRequest) (bd : Option PyDate) :
    Except ApiError PersonalData × DB :=
  match (updateWhere req.tg_id (setProfile req bd) db.users).find?
      (userMatch req.tg_id) with
  | some u =>
    (.ok (profileRow u),
      { db with users := updateWhere req.tg_id (setProfile req bd) db.users })
  | none =>
    (.error (.notFound "User not found"),
      { db with users := updateWhere req.tg_id (setProfile req bd) db.users })

/-- Endpoint /api/personal-data/save, composing the parse step with the
UPDATE stage runSaveUpdate: 400 on a bad date before any write. -/
def savePersonalData (db : DB) (req : PersonalDataRequest) :
    Except ApiError PersonalData × DB :=
  match parseBirthField req.birth_date with
  | .error e => (.error e, db)
  | .ok bd => runSaveUpdate db req bd

/-- Endpoint /api/personal-data/get: SELECT the four profile columns
WHERE tg_id = $1; 404 when no row is found. -/
def getPersonalData (db : DB) (req : PersonalDataGetRequest) :
    Except ApiError PersonalData × DB :=
  match db.users.find? (userMatch req.tg_id) with
  | some u => (.ok (profileRow u), db)
  | none => (.error (.notFound "User not found"), db)

/-- Balance stored for a tg_id: the first matching row, as find? reads it. -/
def storedBalance (db : DB) (tg : Int) : Option ℚ :=
  (db.users.find? (userMatch tg)).map User.balance_usdt

/-- Serial application of a list of change-balance calls for one tg_id,
threading the state. -/
def applyDeltas (db : DB) (tg : Int) : List ℚ → DB
  | [] => db
  | d :: ds => applyDeltas (changeBalance db ⟨tg, d⟩).2 tg ds

/-- The balance invariant of the spec: every stored balance is
non-negative. -/
def balancesNonneg (db : DB) : Prop := ∀ u ∈ db.users, 0 ≤ u.balance_usdt

instance (db : DB) : Decidable (balancesNonneg db) := by
  unfold balancesNonneg; infer_instance

/-- Recogniser for the 400 error class, used to state the validation
claims. -/
def isInvalidFormat {α : Type} : Except ApiError α → Bool
  | .error (.invalidFormat _) => true
  | _ => false

/-! ### Helper lemmas about the embedded operations -/

theorem find?_map_ite {α : Type} (p : α → Bool) (f : α → α)
    (hf : ∀ a, p (f a) = p a) (l : List α) :
    (l.map (fun a => if p a then f a else a)).find? p = (l.find? p).map f := by
  induction l with
  | nil => rfl
  | cons a l ih =>
    by_cases h : p a
    · simp [List.find?_cons, h, hf a]
    · have h' : p a = false := by simpa using h
      simp [List.find?_cons, h', hf a, ih]

theorem map_ite_id {α : Type} (p : α → Bool) (f : α → α) (l : List α)
    (h : ∀ a ∈ l, p a = false) :
    l.map (fun a => if p a then f a else a) = l := by
  induction l with
  | nil => rfl
  | cons a l ih =>
    have ha := h a (List.mem_cons_self a l)
    simp [ha, ih (fun b hb => h b (List.mem_cons_of_mem a hb))]

theorem find?_none_of_all_false {α : Type} (p : α → Bool) (l : List α)
    (h : ∀ a ∈ l, p a = false) : l.find? p = none := by
  rw [List.find?_eq_none]
  intro x hx
  simp [h x hx]

theorem userMatch_clampUpdate (tg : Int) (d : ℚ) (u : User) :
    userMatch tg (clampUpdate d u) = userMatch tg u := rfl

theorem userMatch_setProfile (tg : Int) (p : PersonalDataRequest)
    (bd : Option PyDate) (u : User) :
    userMatch tg (setProfile p bd u) = userMatch tg u := rfl

theorem updateWhere_find? (tg : Int) (f : User → User)
    (hf : ∀ u, userMatch tg (f u) = userMatch tg u) (l : List User) :
    (updateWhere tg f l).find? (userMatch tg) = (l.find? (userMatch tg)).map f :=
  find?_map_ite _ _ hf l

theorem updateWhere_id (tg : Int) (f : User → User) (l : List User)
    (h : ∀ u ∈ l, userMatch tg u = false) : updateWhere tg f l = l :=
  map_ite_id _ _ _ h

theorem mem_updateWhere {v : User} {tg : Int} {f : User → User} {l : List User}
    (hv : v ∈ updateWhere tg f l) :
    ∃ u ∈ l, (userMatch tg u = true ∧ v = f u) ∨ (userMatch tg u = false ∧ v = u) := by
  rcases List.mem_map.mp hv with ⟨u, hu, hvu⟩
  refine ⟨u, hu, ?_⟩
  by_cases h : userMatch tg u
  · rw [if_pos h] at hvu
    exact Or.inl ⟨h, hvu.symm⟩
  · rw [if_neg h] at hvu
    exact Or.inr ⟨by simpa using h, hvu.symm⟩

theorem latestAssigned_ne_none (d : DepositAddress) (ds : List DepositAddress) :
    latestAssigned (d :: ds) ≠ none := by
  rw [latestAssigned]
  split
  · simp
  · split <;> simp

theorem latestAssigned_spec (l : List DepositAddress) (m : DepositAddress)
    (h : latestAssigned l = some m) :
    m ∈ l ∧ ∀ x ∈ l, x.assigned_at ≤ m.assigned_at := by
  induction l generalizing m with
  | nil => cases h
  | cons d ds ih =>
    rw [latestAssigned] at h
    split at h
    next hds =>
      cases h
      cases ds with
      | nil => simp
      | cons e es => exact absurd hds (latestAssigned_ne_none e es)
    next m0 hds =>
      obtain ⟨hmem, hbound⟩ := ih m0 hds
      split at h
      next hlt =>
        cases h
        refine ⟨List.mem_cons_of_mem d hmem, ?_⟩
        intro x hx
        rcases List.mem_cons.mp hx with hx | hx
        · subst hx
          exact le_of_lt hlt
        · exact hbound x hx
      next hlt =>
        cases h
        refine ⟨List.mem_cons_self _ _, ?_⟩
        intro x hx
        rcases List.mem_cons.mp hx with hx | hx
        · subst hx
          exact le_refl _
        · exact le_trans (hbound x hx) (le_of_not_lt hlt)

theorem greatest_eq_max (a b : ℚ) : greatest a b = max a b := by
  unfold greatest
  by_cases h : a ≤ b
  · rw [if_pos h, max_eq_right h]
  · rw [if_neg h, max_eq_left (le_of_not_le h)]

theorem greatest_nonneg (a b : ℚ) (h : 0 ≤ a) : 0 ≤ greatest a b := by
  unfold greatest
  split
  · exact le_trans h (by assumption)
  · exact h

theorem getBalance_state (db : DB) (r : BalanceRequest) : (getBalance db r).2 = db := by
  unfold getBalance
  split <;> rfl

theorem getDepositAddress_state (db : DB) (r : DepositAddressRequest) :
    (getDepositAddress db r).2 = db := by
  unfold getDepositAddress
  split <;> rfl

theorem getPersonalData_state (db : DB) (r : PersonalDataGetRequest) :
    (getPersonalData db r).2 = db := by
  unfold getPersonalData
  split <;> rfl

theorem changeBalance_users (db : DB) (r : BalanceChangeRequest) :
    (changeBalance db r).2.users = updateWhere r.tg_id (clampUpdate r.delta) db.users := by
  unfold changeBalance
  split <;> rfl

theorem changeBalance_step (db : DB) (tg : Int) (d : ℚ) (u : User)
    (hu : db.users.find? (userMatch tg) = some u) :
    (changeBalance db ⟨tg, d⟩).1 = Except.ok (greatest 0 (u.balance_usdt + d)) ∧
    (changeBalance db ⟨tg, d⟩).2.users.find? (userMatch tg) = some (clampUpdate d u) := by
  have hfind : (updateWhere tg (clampUpdate d) db.users).find? (userMatch tg)
      = some (clampUpdate d u) := by
    rw [updateWhere_find? tg (clampUpdate d) (fun v => rfl), hu]
    rfl
  unfold changeBalance
  simp only [hfind]
  exact ⟨rfl, trivial⟩

theorem savePersonalData_eq_run (db : DB) (p : PersonalDataRequest) (bd : Option PyDate)
    (hbd : parseBirthField p.birth_date = .ok bd) :
    savePersonalData db p = runSaveUpdate db p bd := by
  unfold savePersonalData
  rw [hbd]

theorem savePersonalData_error (db : DB) (p : PersonalDataRequest) (e : ApiError)
    (hbd : parseBirthField p.birth_date = .error e) :
    savePersonalData db p = (.error e, db) := by
  unfold savePersonalData
  rw [hbd]

theorem savePersonalData_step (db : DB) (p : PersonalDataRequest) (u : User)
    (bd : Option PyDate)
    (hu : db.users.find? (userMatch p.tg_id) = some u)
    (hbd : parseBirthField p.birth_date = .ok bd) :
    (savePersonalData db p).1 = Except.ok (profileRow (setProfile p bd u)) ∧
    (savePersonalData db p).2.users = updateWhere p.tg_id (setProfile p bd) db.users ∧
    (savePersonalData db p).2.users.find? (userMatch p.tg_id) = some (setProfile p bd u) := by
  have hfind : (updateWhere p.tg_id (setProfile p bd) db.users).find? (userMatch p.tg_id)
      = some (setProfile p bd u) := by
    rw [updateWhere_find? p.tg_id (setProfile p bd) (fun v => rfl), hu]
    rfl
  rw [savePersonalData_eq_run db p bd hbd]
  unfold runSaveUpdate
  simp only [hfind]
  exact ⟨trivial, trivial, trivial⟩

theorem savePersonalData_users (db : DB) (p : PersonalDataRequest) (bd : Option PyDate)
    (hbd : parseBirthField p.birth_date = .ok bd) :
    (savePersonalData db p).2.users = updateWhere p.tg_id (setProfile p bd) db.users := by
  rw [savePersonalData_eq_run db p bd hbd]
  unfold runSaveUpdate
  split <;> rfl

theorem getBalance_missing (db : DB) (r : BalanceRequest)
    (h : ∀ u ∈ db.users, userMatch r.tg_id u = false) :
    getBalance db r = (.error (.notFound "User not found"), db) := by
  unfold getBalance
  rw [find?_none_of_all_false _ _ h]

theorem getPersonalData_missing (db : DB) (r : PersonalDataGetRequest)
    (h : ∀ u ∈ db.users, userMatch r.tg_id u = false) :
    getPersonalData db r = (.error (.notFound "User not found"), db) := by
  unfold getPersonalData
  rw [find?_none_of_all_false _ _ h]

theorem depositCandidates_missing (db : DB) (tg : Int)
    (h : ∀ u ∈ db.users, userMatch tg u = false) :
    depositCandidates db tg = [] := by
  unfold depositCandidates
  rw [List.filter_eq_nil_iff]
  intro da hda hpred
  rw [List.any_eq_true] at hpred
  obtain ⟨u, hu, hpu⟩ := hpred
  have hfalse := h u hu
  unfold userMatch at hfalse
  rw [Bool.and_eq_true] at hpu
  simp [hfalse] at hpu

theorem getDepositAddress_missing (db : DB) (r : DepositAddressRequest)
    (h : ∀ u ∈ db.users, userMatch r.tg_id u = false) :
    getDepositAddress db r = (.error (.notFound "Deposit address not found"), db) := by
  unfold getDepositAddress
  rw [depositCandidates_missing db r.tg_id h]
  rfl

theorem changeBalance_missing (db : DB) (r : BalanceChangeRequest)
    (h : ∀ u ∈ db.users, userMatch r.tg_id u = false) :
    changeBalance db r = (.error (.notFound "User not found"), db) := by
  unfold changeBalance
  rw [updateWhere_id _ _ _ h, find?_none_of_all_false _ _ h]

theorem savePersonalData_missing (db : DB) (p : PersonalDataRequest) (bd : Option PyDate)
    (hbd : parseBirthField p.birth_date = Except.ok bd)
    (h : ∀ u ∈ db.users, userMatch p.tg_id u = false) :
    savePersonalData db p = (.error (.notFound "User not found"), db) := by
  rw [savePersonalData_eq_run db p bd hbd]
  unfold runSaveUpdate
  rw [updateWhere_id _ _ _ h, find?_none_of_all_false _ _ h]

theorem parseDate_empty : parseDate "" = none := rfl

theorem isCanonicalDate_spec (s : String) (h : isCanonicalDate s = true) :
    ∃ d, parseDate s = some d ∧ dateToIso d = s := by
  unfold isCanonicalDate at h
  cases hp : parseDate s with
  | none => rw [hp] at h; cases h
  | some d =>
    rw [hp] at h
    exact ⟨d, rfl, by simpa using h⟩

theorem parseBirthField_of_parse (s : String) (d : PyDate)
    (hp : parseDate s = some d) :
    parseBirthField (some s) = .ok (some d) := by
  have hne : (s == "") = false := by
    rw [beq_eq_false_iff_ne]
    intro hcontra
    rw [hcontra, parseDate_empty] at hp
    cases hp
  unfold parseBirthField
  simp [hne, hp]

theorem parseBirthField_invalid (s : String) (hne : s ≠ "")
    (hp : parseDate s = none) :
    parseBirthField (some s) =
      .error (.invalidFormat "Invalid date format, expected YYYY-MM-DD") := by
  have hne' : (s == "") = false := beq_eq_false_iff_ne.mpr hne
  unfold parseBirthField
  simp [hne', hp]

theorem isInvalidFormat_save_of_ok (db : DB) (p : PersonalDataRequest)
    (bd : Option PyDate)
    (hbd : parseBirthField p.birth_date = Except.ok bd) :
    isInvalidFormat (savePersonalData db p).1 = false := by
  rw [savePersonalData_eq_run db p bd hbd]
  unfold runSaveUpdate
  split <;> rfl

theorem applyDeltas_find? (ds : List ℚ) (db : DB) (tg : Int) (u : User)
    (hu : db.users.find? (userMatch tg) = some u) :
    ∃ v, (applyDeltas db tg ds).users.find? (userMatch tg) = some v ∧
      v.balance_usdt = ds.foldl (fun b d => max 0 (b + d)) u.balance_usdt := by
  induction ds generalizing db u with
  | nil => exact ⟨u, hu, rfl⟩
  | cons d ds ih =>
    obtain ⟨h1, h2⟩ := changeBalance_step db tg d u hu
    obtain ⟨v, hv, hvb⟩ := ih _ _ h2
    refine ⟨v, ?_, ?_⟩
    · rw [applyDeltas]
      exact hv
    · rw [hvb]
      simp [List.foldl_cons, clampUpdate, greatest_eq_max]

/-! ### The claims -/

/-- C1: for every stored user with current balance b, change-balance with
input (tg_id, delta) sets the stored balance to max(0, b + delta) and
returns that new value in the response. -/
theorem changeBalance_clamps (db : DB) (tg : Int) (d : ℚ) (u : User)
    (hu : db.users.find? (userMatch tg) = some u) :
    (changeBalance db ⟨tg, d⟩).1 = Except.ok (max 0 (u.balance_usdt + d)) ∧
    ∃ v, (changeBalance db ⟨tg, d⟩).2.users.find? (userMatch tg) = some v ∧
      v.balance_usdt = max 0 (u.balance_usdt + d) := by
  obtain ⟨h1, h2⟩ := changeBalance_step db tg d u hu
  rw [greatest_eq_max] at h1
  refine ⟨h1, clampUpdate d u, h2, ?_⟩
  simp [clampUpdate, greatest_eq_max]

/-- Witness for C1 at the spec scenario: user 42 with balance 10, delta
-15, response balance 0 (clamped, not negative). -/
theorem changeBalance_clamps_witness :
    (([⟨1, 42, 10, none, none, none, none⟩] : List User).find? (userMatch 42) =
      some ⟨1, 42, 10, none, none, none, none⟩) ∧
    (changeBalance ⟨[⟨1, 42, 10, none, none, none, none⟩], []⟩ ⟨42, -15⟩).1 =
      Except.ok 0 := by
  constructor
  · rfl
  · have h := (changeBalance_clamps ⟨[⟨1, 42, 10, none, none, none, none⟩], []⟩
      42 (-15) ⟨1, 42, 10, none, none, none, none⟩ rfl).1
    rw [h, max_eq_left (by norm_num : (10 : ℚ) + -15 ≤ 0)]

/-- C2: starting from a state where every stored balance is non-negative,
each of the five endpoints preserves that invariant for every request,
arbitrarily negative delta included. -/
theorem endpoints_preserve_nonneg (db : DB) (hinv : balancesNonneg db) :
    (∀ r, balancesNonneg (getBalance db r).2) ∧
    (∀ r, balancesNonneg (getDepositAddress db r).2) ∧
    (∀ r, balancesNonneg (changeBalance db r).2) ∧
    (∀ r, balancesNonneg (savePersonalData db r).2) ∧
    (∀ r, balancesNonneg (getPersonalData db r).2) := by
  refine ⟨fun r => by rw [getBalance_state]; exact hinv,
    fun r => by rw [getDepositAddress_state]; exact hinv,
    fun r => ?_, fun r => ?_,
    fun r => by rw [getPersonalData_state]; exact hinv⟩
  · intro v hv
    rw [changeBalance_users] at hv
    obtain ⟨u, hu, hcase⟩ := mem_updateWhere hv
    rcases hcase with ⟨hm, he⟩ | ⟨hm, he⟩
    · rw [he]
      exact greatest_nonneg 0 _ le_rfl
    · rw [he]
      exact hinv u hu
  · intro v hv
    cases hbf : parseBirthField r.birth_date with
    | error e =>
      rw [savePersonalData_error db r e hbf] at hv
      exact hinv v hv
    | ok bd =>
      rw [savePersonalData_users db r bd hbf] at hv
      obtain ⟨u, hu, hcase⟩ := mem_updateWhere hv
      rcases hcase with ⟨hm, he⟩ | ⟨hm, he⟩
      · rw [he]
        exact hinv u hu
      · rw [he]
        exact hinv u hu

/-- Witness for C2: a one-user state with balance 10 satisfies the
invariant, and it is preserved by a change-balance with delta -1000. -/
theorem endpoints_preserve_nonneg_witness :
    balancesNonneg ⟨[⟨1, 42, 10, none, none, none, none⟩], []⟩ ∧
    balancesNonneg (changeBalance ⟨[⟨1, 42, 10, none, none, none, none⟩], []⟩
      ⟨42, -1000⟩).2 :=
  ⟨by decide,
    (endpoints_preserve_nonneg ⟨[⟨1, 42, 10, none, none, none, none⟩], []⟩
      (by decide)).2.2.1 ⟨42, -1000⟩⟩

/-- C3: for a tg_id with no stored users row, every endpoint answers with
the 404 error of api.py and leaves the state unchanged; save is taken
with a payload whose birth_date passes the parse step. -/
theorem missing_user_notFound (db : DB) (tg : Int) (d : ℚ)
    (p : PersonalDataRequest) (bd : Option PyDate)
    (habs : ∀ u ∈ db.users, userMatch tg u = false)
    (hp : p.tg_id = tg)
    (hwf : parseBirthField p.birth_date = Except.ok bd) :
    getBalance db ⟨tg⟩ = (.error (.notFound "User not found"), db) ∧
    getDepositAddress db ⟨tg⟩ = (.error (.notFound "Deposit address not found"), db) ∧
    getPersonalData db ⟨tg⟩ = (.error (.notFound "User not found"), db) ∧
    changeBalance db ⟨tg, d⟩ = (.error (.notFound "User not found"), db) ∧
    savePersonalData db p = (.error (.notFound "User not found"), db) := by
  refine ⟨getBalance_missing db ⟨tg⟩ habs, getDepositAddress_missing db ⟨tg⟩ habs,
    getPersonalData_missing db ⟨tg⟩ habs, changeBalance_missing db ⟨tg, d⟩ habs,
    savePersonalData_missing db p bd hwf ?_⟩
  rw [hp]
  exact habs

/-- Witness for C3: tg_id 999 is absent from a one-user state, and the
balance endpoint answers 404 with the state unchanged. -/
theorem missing_user_notFound_witness :
    (∀ u ∈ ([⟨1, 7, 10, none, none, none, none⟩] : List User), userMatch 999 u = false) ∧
    getBalance ⟨[⟨1, 7, 10, none, none, none, none⟩], []⟩ ⟨999⟩ =
      (.error (.notFound "User not found"), ⟨[⟨1, 7, 10, none, none, none, none⟩], []⟩) :=
  ⟨by decide,
    (missing_user_notFound ⟨[⟨1, 7, 10, none, none, none, none⟩], []⟩ 999 0
      ⟨999, none, none, none, none⟩ none (by decide) rfl rfl).1⟩

/-- C4: save personal data followed by get personal data for the same
tg_id, with no interleaved writes, returns exactly the four fields just
written; birth_date round-trips through its canonical YYYY-MM-DD string
form unchanged, and null when absent. -/
theorem save_then_get_roundtrip (db : DB) (p : PersonalDataRequest) (u : User)
    (hu : db.users.find? (userMatch p.tg_id) = some u)
    (hbd : p.birth_date = none ∨
      ∃ s, p.birth_date = some s ∧ isCanonicalDate s = true) :
    (getPersonalData (savePersonalData db p).2 ⟨p.tg_id⟩).1 =
      Except.ok ⟨p.first_name, p.last_name, p.birth_date, p.gender⟩ := by
  obtain ⟨bd, hparse, hiso⟩ :
      ∃ bd, parseBirthField p.birth_date = Except.ok bd ∧
        bd.map dateToIso = p.birth_date := by
    rcases hbd with h | ⟨s, hs, hcan⟩
    · exact ⟨none, by rw [h]; rfl, by rw [h]; rfl⟩
    · obtain ⟨dte, hp, hdi⟩ := isCanonicalDate_spec s hcan
      exact ⟨some dte, by rw [hs]; exact parseBirthField_of_parse s dte hp,
        by rw [hs, Option.map_some', hdi]⟩
  obtain ⟨h1, h2, h3⟩ := savePersonalData_step db p u bd hu hparse
  unfold getPersonalData
  simp only [h3]
  simp [profileRow, setProfile, hiso]

/-- Witness for C4: a canonical birth date 1990-01-02 comes back from the
get endpoint exactly as written, together with the three other fields. -/
theorem save_then_get_roundtrip_witness :
    (([⟨1, 42, 10, none, none, none, none⟩] : List User).find? (userMatch 42) =
      some ⟨1, 42, 10, none, none, none, none⟩) ∧
    isCanonicalDate "1990-01-02" = true ∧
    (getPersonalData (savePersonalData ⟨[⟨1, 42, 10, none, none, none, none⟩], []⟩
        ⟨42, some "Ann", some "Lee", some "1990-01-02", some "female"⟩).2 ⟨42⟩).1 =
      Except.ok ⟨some "Ann", some "Lee", some "1990-01-02", some "female"⟩ :=
  ⟨rfl, by decide,
    save_then_get_roundtrip ⟨[⟨1, 42, 10, none, none, none, none⟩], []⟩
      ⟨42, some "Ann", some "Lee", some "1990-01-02", some "female"⟩
      ⟨1, 42, 10, none, none, none, none⟩ rfl
      (Or.inr ⟨"1990-01-02", rfl, by decide⟩)⟩

/-- C5 counterexample: a birth_date supplied as the empty string is
present in the payload and not parseable as a date, yet the save endpoint
does not return the 400 error and it does write (the profile fields are
overwritten), contradicting the claim as stated. -/
theorem save_empty_birthdate_counterexample :
    isInvalidFormat (savePersonalData
        ⟨[⟨1, 42, 10, some "A", some "B", some ⟨1990, 1, 2⟩, some "m"⟩], []⟩
        ⟨42, none, none, some "", none⟩).1 = false ∧
    (savePersonalData
        ⟨[⟨1, 42, 10, some "A", some "B", some ⟨1990, 1, 2⟩, some "m"⟩], []⟩
        ⟨42, none, none, some "", none⟩).2 ≠
      ⟨[⟨1, 42, 10, some "A", some "B", some ⟨1990, 1, 2⟩, some "m"⟩], []⟩ := by
  constructor
  · rfl
  · decide

/-- C5 amended: a present, non-empty birth_date that does not parse as a
YYYY-MM-DD calendar date yields the 400 error and no write; a parseable
birth_date never yields the 400 error; an empty-string birth_date is
treated as absent by the truthiness guard, skipping validation. -/
theorem save_birthdate_validation (db : DB) (p : PersonalDataRequest) (s : String)
    (hs : p.birth_date = some s) :
    (s ≠ "" → parseDate s = none →
      savePersonalData db p =
        (Except.error (.invalidFormat "Invalid date format, expected YYYY-MM-DD"), db)) ∧
    (∀ d, parseDate s = some d → isInvalidFormat (savePersonalData db p).1 = false) ∧
    (s = "" → isInvalidFormat (savePersonalData db p).1 = false) := by
  refine ⟨?_, ?_, ?_⟩
  · intro hne hp
    apply savePersonalData_error
    rw [hs]
    exact parseBirthField_invalid s hne hp
  · intro d hp
    apply isInvalidFormat_save_of_ok db p (some d)
    rw [hs]
    exact parseBirthField_of_parse s d hp
  · intro hempty
    apply isInvalidFormat_save_of_ok db p none
    rw [hs, hempty]
    rfl

/-- Witness for C5 at the spec test case: birth_date 2024-02-30 is a
well-shaped but invalid calendar date, so the save returns the 400 error
and leaves the state unchanged. -/
theorem save_birthdate_validation_witness :
    ("2024-02-30" ≠ "" ∧ parseDate "2024-02-30" = none) ∧
    savePersonalData ⟨[⟨1, 42, 10, none, none, none, none⟩], []⟩
        ⟨42, some "Ann", none, some "2024-02-30", none⟩ =
      (Except.error (.invalidFormat "Invalid date format, expected YYYY-MM-DD"),
        ⟨[⟨1, 42, 10, none, none, none, none⟩], []⟩) :=
  ⟨⟨by decide, by decide⟩,
    (save_birthdate_validation ⟨[⟨1, 42, 10, none, none, none, none⟩], []⟩
      ⟨42, some "Ann", none, some "2024-02-30", none⟩ "2024-02-30" rfl).1
      (by decide) (by decide)⟩

/-- C6: a successful save sets all four profile columns to exactly the
supplied values, null included for every omitted field, erasing what was
stored before. -/
theorem save_sets_all_fields (db : DB) (p : PersonalDataRequest) (u : User)
    (bd : Option PyDate)
    (hu : db.users.find? (userMatch p.tg_id) = some u)
    (hbd : parseBirthField p.birth_date = Except.ok bd) :
    (savePersonalData db p).1 = Except.ok (profileRow (setProfile p bd u)) ∧
    ∀ v ∈ (savePersonalData db p).2.users, userMatch p.tg_id v = true →
      v.first_name = p.first_name ∧ v.last_name = p.last_name ∧
        v.birth_date = bd ∧ v.gender = p.gender := by
  obtain ⟨h1, h2, h3⟩ := savePersonalData_step db p u bd hu hbd
  refine ⟨h1, ?_⟩
  intro v hv hmatch
  rw [h2] at hv
  obtain ⟨w, hw, hcase⟩ := mem_updateWhere hv
  rcases hcase with ⟨hm, he⟩ | ⟨hm, he⟩
  · rw [he]
    exact ⟨rfl, rfl, rfl, rfl⟩
  · rw [he] at hmatch
    rw [hm] at hmatch
    cases hmatch

/-- Witness for C6: a user with a fully populated profile, saved over
with a payload that supplies only first_name and birth_date: the stored
row afterwards holds exactly the supplied values, null for the rest. -/
theorem save_sets_all_fields_witness :
    (([⟨1, 42, 10, some "A", some "B", some ⟨1990, 1, 2⟩, some "m"⟩] : List User).find?
        (userMatch 42) = some ⟨1, 42, 10, some "A", some "B", some ⟨1990, 1, 2⟩, some "m"⟩) ∧
    parseBirthField (some "2000-12-31") = Except.ok (some ⟨2000, 12, 31⟩) ∧
    ((savePersonalData ⟨[⟨1, 42, 10, some "A", some "B", some ⟨1990, 1, 2⟩, some "m"⟩], []⟩
        ⟨42, some "Z", none, some "2000-12-31", none⟩).1 =
      Except.ok (profileRow (setProfile ⟨42, some "Z", none, some "2000-12-31", none⟩
        (some ⟨2000, 12, 31⟩) ⟨1, 42, 10, some "A", some "B", some ⟨1990, 1, 2⟩, some "m"⟩)) ∧
    ∀ v ∈ (savePersonalData ⟨[⟨1, 42, 10, some "A", some "B", some ⟨1990, 1, 2⟩, some "m"⟩], []⟩
        ⟨42, some "Z", none, some "2000-12-31", none⟩).2.users, userMatch 42 v = true →
      v.first_name = some "Z" ∧ v.last_name = none ∧
        v.birth_date = some ⟨2000, 12, 31⟩ ∧ v.gender = none) :=
  ⟨rfl, by decide,
    save_sets_all_fields ⟨[⟨1, 42, 10, some "A", some "B", some ⟨1990, 1, 2⟩, some "m"⟩], []⟩
      ⟨42, some "Z", none, some "2000-12-31", none⟩
      ⟨1, 42, 10, some "A", some "B", some ⟨1990, 1, 2⟩, some "m"⟩
      (some ⟨2000, 12, 31⟩) rfl (by decide)⟩

/-- C7: when the user has at least one deposit address in the join, the
endpoint returns the address of a row whose assigned_at is maximal among
the candidate rows of that user. -/
theorem deposit_address_latest (db : DB) (tg : Int)
    (hne : depositCandidates db tg ≠ []) :
    ∃ m, m ∈ depositCandidates db tg ∧
      (getDepositAddress db ⟨tg⟩).1 = Except.ok m.address ∧
      ∀ x ∈ depositCandidates db tg, x.assigned_at ≤ m.assigned_at := by
  cases hm : latestAssigned (depositCandidates db tg) with
  | none =>
    exfalso
    cases hl : depositCandidates db tg with
    | nil => exact hne hl
    | cons e es =>
      rw [hl] at hm
      exact latestAssigned_ne_none e es hm
  | some m =>
    obtain ⟨hmem, hb⟩ := latestAssigned_spec _ _ hm
    refine ⟨m, hmem, ?_, hb⟩
    unfold getDepositAddress
    simp only [hm]

/-- Witness for C7: a user with two addresses assigned at times 5 and 9;
the endpoint returns one with the maximal timestamp. -/
theorem deposit_address_latest_witness :
    depositCandidates ⟨[⟨1, 42, 10, none, none, none, none⟩],
      [⟨1, "addrOld", 5⟩, ⟨1, "addrNew", 9⟩]⟩ 42 ≠ [] ∧
    ∃ m, m ∈ depositCandidates ⟨[⟨1, 42, 10, none, none, none, none⟩],
        [⟨1, "addrOld", 5⟩, ⟨1, "addrNew", 9⟩]⟩ 42 ∧
      (getDepositAddress ⟨[⟨1, 42, 10, none, none, none, none⟩],
        [⟨1, "addrOld", 5⟩, ⟨1, "addrNew", 9⟩]⟩ ⟨42⟩).1 = Except.ok m.address ∧
      ∀ x ∈ depositCandidates ⟨[⟨1, 42, 10, none, none, none, none⟩],
        [⟨1, "addrOld", 5⟩, ⟨1, "addrNew", 9⟩]⟩ 42, x.assigned_at ≤ m.assigned_at :=
  ⟨by decide,
    deposit_address_latest ⟨[⟨1, 42, 10, none, none, none, none⟩],
      [⟨1, "addrOld", 5⟩, ⟨1, "addrNew", 9⟩]⟩ 42 (by decide)⟩

/-- C8 counterexample: starting from balance 10, the serial sequence of
deltas [-15, +5] leaves the stored balance at 5, while the single
combined call with delta -15 + 5 leaves it at 0, so the two disagree. -/
theorem serial_vs_combined_counterexample :
    storedBalance (applyDeltas ⟨[⟨1, 42, 10, none, none, none, none⟩], []⟩
      42 [-15, 5]) 42 = some 5 ∧
    storedBalance (changeBalance ⟨[⟨1, 42, 10, none, none, none, none⟩], []⟩
      ⟨42, -15 + 5⟩).2 42 = some 0 ∧
    (5 : ℚ) ≠ 0 := by
  refine ⟨?_, ?_, by norm_num⟩
  · norm_num [applyDeltas, storedBalance, changeBalance, updateWhere, clampUpdate,
      greatest, userMatch, List.find?]
  · norm_num [storedBalance, changeBalance, updateWhere, clampUpdate,
      greatest, userMatch, List.find?]

/-- C8 amended: serial change-balance calls clamp after each step, so the
final stored balance is the left fold of b across max(0, b + d) over the
deltas; this in general differs from one combined call with the summed
delta, which clamps only once. -/
theorem serial_deltas_clamp_each_step (db : DB) (tg : Int) (u : User) (ds : List ℚ)
    (hu : db.users.find? (userMatch tg) = some u) :
    ∃ v, (applyDeltas db tg ds).users.find? (userMatch tg) = some v ∧
      v.balance_usdt = ds.foldl (fun b d => max 0 (b + d)) u.balance_usdt :=
  applyDeltas_find? ds db tg u hu

/-- Witness for C8 amended, at balance 10 and deltas [-15, +5]. -/
theorem serial_deltas_clamp_each_step_witness :
    (([⟨1, 42, 10, none, none, none, none⟩] : List User).find? (userMatch 42) =
      some ⟨1, 42, 10, none, none, none, none⟩) ∧
    ∃ v, (applyDeltas ⟨[⟨1, 42, 10, none, none, none, none⟩], []⟩
        42 [-15, 5]).users.find? (userMatch 42) = some v ∧
      v.balance_usdt = ([-15, 5] : List ℚ).foldl (fun b d => max 0 (b + d)) 10 :=
  ⟨rfl, serial_deltas_clamp_each_step ⟨[⟨1, 42, 10, none, none, none, none⟩], []⟩
    42 ⟨1, 42, 10, none, none, none, none⟩ [-15, 5] rfl⟩

/-- C9: get-balance answers with exactly the stored balance value; the
float conversion on the way out is the identity of the model. -/
theorem getBalance_returns_stored (db : DB) (tg : Int) (u : User)
    (hu : db.users.find? (userMatch tg) = some u) :
    (getBalance db ⟨tg⟩).1 = Except.ok u.balance_usdt ∧
    pyFloat u.balance_usdt = u.balance_usdt := by
  constructor
  · simp [getBalance, hu, pyFloat]
  · rfl

/-- Witness for C9 at a stored balance of 10. -/
theorem getBalance_returns_stored_witness :
    (([⟨1, 42, 10, none, none, none, none⟩] : List User).find? (userMatch 42) =
      some ⟨1, 42, 10, none, none, none, none⟩) ∧
    (getBalance ⟨[⟨1, 42, 10, none, none, none, none⟩], []⟩ ⟨42⟩).1 =
      Except.ok ((10 : ℚ)) :=
  ⟨rfl, (getBalance_returns_stored ⟨[⟨1, 42, 10, none, none, none, none⟩], []⟩
    42 ⟨1, 42, 10, none, none, none, none⟩ rfl).1⟩

/-- C10: the three read endpoints never modify the stored state, for
every starting state and input, whether they succeed or answer 404. -/
theorem reads_preserve_state (db : DB) (r1 : BalanceRequest)
    (r2 : DepositAddressRequest) (r3 : PersonalDataGetRequest) :
    (getBalance db r1).2 = db ∧ (getDepositAddress db r2).2 = db ∧
    (getPersonalData db r3).2 = db :=
  ⟨getBalance_state db r1, getDepositAddress_state db r2, getPersonalData_state db r3⟩
